import Mathlib

/-!
Verification development for the standalone embedder in runtime/bin/main.cc.

C strings (argv entries, file names, option values) are shallowly embedded as
Lean lists of characters (`CStr`); the strings under consideration never hold
a NUL byte, so C string termination is modelled by the end of the list.  The
preprocessor configuration of a build (DART_PRECOMPILER, DART_NO_SNAPSHOT,
DART_PRODUCT_BINARY, and whether an isolate snapshot buffer is linked in) is
modelled by an explicit `BuildConfig` record, since several option processors
branch on it.  The mutable file-static option globals of main.cc are gathered
into a `ParseState` record that the option processors update and return.
-/

abbrev CStr := List Char

-- Exit codes (main.cc lines 124-131).
def kApiErrorExitCode : Nat := 253
def kCompilationErrorExitCode : Nat := 254
def kErrorExitCode : Nat := 255
def kRestartRequestExitCode : Nat := 1000

-- Snapshot file name constants (main.cc lines 104-108).
def kPrecompiledVmIsolateName : CStr := "precompiled.vmisolate".toList
def kPrecompiledIsolateName : CStr := "precompiled.isolate".toList
def kPrecompiledInstructionsName : CStr := "precompiled.S".toList
def kVMIsolateSuffix : CStr := "vmisolate".toList
def kIsolateSuffix : CStr := "isolate".toList

-- VM service defaults (main.cc lines 115-116).
def DEFAULT_VM_SERVICE_SERVER_IP : CStr := "127.0.0.1".toList
def DEFAULT_VM_SERVICE_SERVER_PORT : Int := 8181

/-- The preprocessor configuration a binary was built with.  `snapshot_linked`
states whether `isolate_snapshot_buffer` is non-NULL (a snapshot was linked
into the executable, main.cc lines 38-40). -/
structure BuildConfig where
  dart_precompiler : Bool
  dart_no_snapshot : Bool
  dart_product_binary : Bool
  snapshot_linked : Bool
deriving DecidableEq

/-- main.cc lines 94-98: `is_noopt` is true iff DART_PRECOMPILER is defined
and DART_NO_SNAPSHOT is not. -/
def BuildConfig.is_noopt (c : BuildConfig) : Bool :=
  c.dart_precompiler && !c.dart_no_snapshot

/-- A JIT build without precompiler and without a linked-in core snapshot. -/
def stdBuild : BuildConfig := ⟨false, false, false, false⟩

/-- A build with a linked-in isolate snapshot (needed by `--snapshot=`). -/
def snapshotBuild : BuildConfig := ⟨false, false, false, true⟩

/-- The `dart_bootstrap` binary: DART_PRECOMPILER and DART_NO_SNAPSHOT defined,
no snapshot linked in; this is the build that can process both
`--full-snapshot-after-run=` and `--gen-precompiled-snapshot`. -/
def bootstrapBuild : BuildConfig := ⟨true, true, false, false⟩

/-- The `dart_product` binary (DART_PRODUCT_BINARY), the only build whose
`--run-full-snapshot=` processor succeeds. -/
def productBuild : BuildConfig := ⟨false, false, true, true⟩

/-- The file-static option globals of main.cc (lines 53-135) that argument
parsing mutates, together with the `vm_options` command line being built and
the `-D` environment hash map (line 164; `none` models the NULL, not yet
allocated, map). -/
structure ParseState where
  generate_script_snapshot : Bool := false
  generate_full_snapshot_after_run : Bool := false
  run_full_snapshot : Bool := false
  gen_precompiled_snapshot : Bool := false
  run_precompiled_snapshot : Bool := false
  snapshot_filename : Option CStr := none
  precompiled_snapshot_directory : Option CStr := none
  commandline_package_root : Option CStr := none
  commandline_packages_file : Option CStr := none
  compile_all : Bool := false
  trace_loading : Bool := false
  do_vm_shutdown : Bool := true
  vm_service_server_ip : CStr := DEFAULT_VM_SERVICE_SERVER_IP
  vm_service_server_port : Int := -1
  environment : Option (List (CStr × CStr)) := none
  version_option : Bool := false
  help_option : Bool := false
  verbose_option : Bool := false
  print_flags_seen : Bool := false
  verbose_debug_seen : Bool := false
  vm_options : List CStr := []
deriving DecidableEq

/-- `strncmp(option, name, strlen(name)) == 0` together with
`option_length >= length`: `name` is a prefix of `option`. -/
def isPrefixOfC : CStr → CStr → Bool
  | [], _ => true
  | _ :: _, [] => false
  | a :: as, b :: bs => a = b && isPrefixOfC as bs

/-- main.cc lines 166-172: a potentially valid VM flag is longer than the
marker and starts with it. -/
def IsValidFlag (nm pre : CStr) : Bool :=
  decide (nm.length > pre.length) && isPrefixOfC pre nm

-- ---------------------------------------------------------------------------
-- C numeric parsing used by ExtractPortAndIP (atoi / sscanf "%d").
-- ---------------------------------------------------------------------------

/-- The whitespace set of C `isspace` in the "C" locale. -/
def isCSpace (c : Char) : Bool :=
  c = ' ' || c = '\t' || c = '\n' || c = '\x0b' || c = '\x0c' || c = '\r'

def skipSpace : CStr → CStr
  | [] => []
  | c :: r => if isCSpace c then skipSpace r else c :: r

/-- Consume a maximal run of decimal digits, accumulating their value. -/
def takeDigitsAcc : CStr → Nat → Nat × CStr
  | [], acc => (acc, [])
  | c :: r, acc =>
    if c.isDigit then takeDigitsAcc r (acc * 10 + (c.toNat - 48)) else (acc, c :: r)

/-- `atoi`: optional whitespace, optional sign, maximal digit run (0 if none). -/
def atoiChars (s : CStr) : Int :=
  match skipSpace s with
  | [] => 0
  | c :: r =>
    if c = '-' then -((takeDigitsAcc r 0).1 : Int)
    else if c = '+' then ((takeDigitsAcc r 0).1 : Int)
    else ((takeDigitsAcc (c :: r) 0).1 : Int)

/-- A single `%d` conversion: optional whitespace and sign, then at least one
digit (otherwise the conversion fails). -/
def scanInt (s : CStr) : Option (Int × CStr) :=
  match skipSpace s with
  | [] => none
  | c :: r =>
    if c = '-' then
      match r with
      | d :: _ => if d.isDigit then
          some (-(((takeDigitsAcc r 0).1 : Int)), (takeDigitsAcc r 0).2) else none
      | [] => none
    else if c = '+' then
      match r with
      | d :: _ => if d.isDigit then
          some ((((takeDigitsAcc r 0).1 : Int)), (takeDigitsAcc r 0).2) else none
      | [] => none
    else if c.isDigit then
      some ((((takeDigitsAcc (c :: r) 0).1 : Int)), (takeDigitsAcc (c :: r) 0).2)
    else none

/-- A literal character in a scanf format string. -/
def scanLit (ch : Char) : CStr → Option CStr
  | [] => none
  | c :: r => if c = ch then some r else none

/-- `sscanf(s, "%d/%d.%d.%d.%d%n", ...)`, returning `%n` (the number of
characters consumed) when all five conversions succeed.  In C a partial match
(at least one but fewer than five conversions) makes the `if (sscanf(...))`
at main.cc line 265 read an indeterminate `n`; such inputs are modelled as a
failed match. -/
def sscanfPortIp (s : CStr) : Option Nat :=
  (scanInt s).bind fun p1 =>
  (scanLit '/' p1.2).bind fun r2 =>
  (scanInt r2).bind fun p2 =>
  (scanLit '.' p2.2).bind fun r3 =>
  (scanInt r3).bind fun p3 =>
  (scanLit '.' p3.2).bind fun r4 =>
  (scanInt r4).bind fun p4 =>
  (scanLit '.' p4.2).bind fun r5 =>
  (scanInt r5).map fun p5 => s.length - p5.2.length

/-- `strstr(option_value, "/")`, returning the tail after the first slash. -/
def afterFirstSlash : CStr → Option CStr
  | [] => none
  | c :: r => if c = '/' then some r else afterFirstSlash r

/-- main.cc lines 234-274.  Returns `some (port, ip)` on success and `none`
when the option value is rejected. -/
def ExtractPortAndIP (option_value : CStr) (default_port : Int)
    (default_ip : CStr) : Option (Int × CStr) :=
  match option_value with
  | [] => some (default_port, default_ip)
  | c :: rest =>
    if c ≠ '=' && c ≠ ':' then none
    else
      let port := atoiChars rest
      match afterFirstSlash (c :: rest) with
      | none => some (port, default_ip)
      | some ip =>
        match sscanfPortIp rest with
        | some n => if (c :: rest).drop (1 + n) = [] then some (port, ip) else none
        | none => none

-- ---------------------------------------------------------------------------
-- Environment table (-D defines) and its lookup callback.
-- ---------------------------------------------------------------------------

/-- `HashMap::Lookup(key, hash, true)` followed by `entry->value = value`
(main.cc lines 308-311): overwrite the entry for the key if present,
otherwise add a new entry. -/
def envInsert : List (CStr × CStr) → CStr → CStr → List (CStr × CStr)
  | [], n, v => [(n, v)]
  | (k, w) :: rest, n, v =>
    if k = n then (k, v) :: rest else (k, w) :: envInsert rest n v

/-- `HashMap::Lookup(key, hash, false)` (main.cc lines 701-704). -/
def envLookup : List (CStr × CStr) → CStr → Option CStr
  | [], _ => none
  | (k, w) :: rest, n => if k = n then some w else envLookup rest n

/-- `strchr(arg, '=')`: split at the first equals sign, `none` if absent. -/
def splitAtFirstEqChars : CStr → Option (CStr × CStr)
  | [] => none
  | c :: rest =>
    if c = '=' then some ([], rest)
    else
      match splitAtFirstEqChars rest with
      | none => none
      | some (n, v) => some (c :: n, v)

/-- main.cc lines 277-313 (`ProcessEnvironmentOption`).  An empty `-D` is
ignored (returns true without touching the table); otherwise the table is
allocated if still NULL, and the option fails if there is no `=` or the name
part is empty. -/
def ProcessEnvironmentOption (arg : CStr) (s : ParseState) : Bool × ParseState :=
  if arg = [] then (true, s)
  else
    let env0 := s.environment.getD []
    let s1 := { s with environment := some env0 }
    match splitAtFirstEqChars arg with
    | none => (false, s1)
    | some (n, v) =>
      if n = [] then (false, s1)
      else (true, { s1 with environment := some (envInsert env0 n v) })

/-- main.cc lines 687-716 (`EnvironmentCallback`), restricted to the lookup it
performs: NULL table or missing entry yield the absent value (`Dart_Null`). -/
def EnvironmentCallback (environment : Option (List (CStr × CStr)))
    (name : CStr) : Option CStr :=
  match environment with
  | none => none
  | some table => envLookup table name

-- ---------------------------------------------------------------------------
-- Option processors (main.cc lines 175-495).
-- ---------------------------------------------------------------------------

def ProcessVersionOption (arg : CStr) (s : ParseState) : Bool × ParseState :=
  if arg = [] then (true, { s with version_option := true }) else (false, s)

def ProcessHelpOption (arg : CStr) (s : ParseState) : Bool × ParseState :=
  if arg = [] then (true, { s with help_option := true }) else (false, s)

def ProcessVerboseOption (arg : CStr) (s : ParseState) : Bool × ParseState :=
  if arg = [] then (true, { s with verbose_option := true }) else (false, s)

/-- main.cc lines 207-215: reject an empty value or one starting with '-'. -/
def ProcessPackageRootOption (arg : CStr) (s : ParseState) : Bool × ParseState :=
  match arg with
  | [] => (false, s)
  | c :: rest =>
    if c = '-' then (false, s)
    else (true, { s with commandline_package_root := some (c :: rest) })

/-- main.cc lines 218-226. -/
def ProcessPackagesOption (arg : CStr) (s : ParseState) : Bool × ParseState :=
  match arg with
  | [] => (false, s)
  | c :: rest =>
    if c = '-' then (false, s)
    else (true, { s with commandline_packages_file := some (c :: rest) })

def ProcessCompileAllOption (arg : CStr) (s : ParseState) : Bool × ParseState :=
  if arg = [] then (true, { s with compile_all := true }) else (false, s)

def ProcessTraceLoadingOption (arg : CStr) (s : ParseState) : Bool × ParseState :=
  if arg = [] then (true, { s with trace_loading := true }) else (false, s)

/-- main.cc lines 327-345: only available when DART_PRECOMPILER is defined;
strips a leading '=' or ':' from the directory value. -/
def ProcessGenPrecompiledSnapshotOption (cfg : BuildConfig) (arg : CStr)
    (s : ParseState) : Bool × ParseState :=
  if !cfg.dart_precompiler then (false, s)
  else
    let dir := match arg with
      | c :: rest => if c = '=' || c = ':' then rest else c :: rest
      | [] => []
    (true, { s with precompiled_snapshot_directory := some dir,
                    gen_precompiled_snapshot := true,
                    vm_options := s.vm_options ++ ["--precompilation".toList] })

/-- main.cc lines 348-360. -/
def ProcessRunPrecompiledSnapshotOption (arg : CStr)
    (s : ParseState) : Bool × ParseState :=
  let dir := match arg with
    | c :: rest => if c = '=' || c = ':' then rest else c :: rest
    | [] => []
  (true, { s with precompiled_snapshot_directory := some dir,
                  run_precompiled_snapshot := true,
                  vm_options := s.vm_options ++ ["--precompilation".toList] })

/-- Which of the three snapshot-mode booleans a caller of
`ProcessSnapshotOptionHelper` passes by address. -/
inductive SnapFlagSel | script | fullAfterRun | runFull
deriving DecidableEq

def setSnapFlag : ParseState → SnapFlagSel → Bool → ParseState
  | s, .script, b => { s with generate_script_snapshot := b }
  | s, .fullAfterRun, b => { s with generate_full_snapshot_after_run := b }
  | s, .runFull, b => { s with run_full_snapshot := b }

/-- main.cc lines 363-375: record the filename, set the chosen flag, then
fail (resetting only that flag) if both `--snapshot` and
`--full-snapshot-after-run` are now requested. -/
def ProcessSnapshotOptionHelper (filename : CStr) (sel : SnapFlagSel)
    (s : ParseState) : Bool × ParseState :=
  let s1 := { setSnapFlag s sel true with snapshot_filename := some filename }
  if s1.generate_script_snapshot && s1.generate_full_snapshot_after_run then
    (false, setSnapFlag s1 sel false)
  else (true, s1)

/-- main.cc lines 378-390: script snapshots need a linked-in core snapshot. -/
def ProcessScriptSnapshotOption (cfg : BuildConfig) (filename : CStr)
    (s : ParseState) : Bool × ParseState :=
  if filename = [] then (false, s)
  else if !cfg.snapshot_linked then (false, s)
  else ProcessSnapshotOptionHelper filename .script s

/-- main.cc lines 393-406: full snapshots can only be generated by a binary
without a linked-in core snapshot (dart_bootstrap). -/
def ProcessFullSnapshotAfterRunOption (cfg : BuildConfig) (filename : CStr)
    (s : ParseState) : Bool × ParseState :=
  if filename = [] then (false, s)
  else if cfg.snapshot_linked then (false, s)
  else ProcessSnapshotOptionHelper filename .fullAfterRun s

/-- main.cc lines 409-418: only available in the DART_PRODUCT_BINARY build. -/
def ProcessRunFullSnapshotOption (cfg : BuildConfig) (filename : CStr)
    (s : ParseState) : Bool × ParseState :=
  if !cfg.dart_product_binary then (false, s)
  else ProcessSnapshotOptionHelper filename .runFull s

/-- main.cc lines 421-436. -/
def ProcessEnableVmServiceOption (option_value : CStr)
    (s : ParseState) : Bool × ParseState :=
  match ExtractPortAndIP option_value DEFAULT_VM_SERVICE_SERVER_PORT
      DEFAULT_VM_SERVICE_SERVER_IP with
  | some (port, ip) =>
    (true, { s with vm_service_server_port := port, vm_service_server_ip := ip })
  | none => (false, s)

/-- main.cc lines 439-457. -/
def ProcessObserveOption (option_value : CStr)
    (s : ParseState) : Bool × ParseState :=
  match ExtractPortAndIP option_value DEFAULT_VM_SERVICE_SERVER_PORT
      DEFAULT_VM_SERVICE_SERVER_IP with
  | some (port, ip) =>
    (true, { s with vm_service_server_port := port, vm_service_server_ip := ip,
                    vm_options := s.vm_options ++
                      ["--pause-isolates-on-exit".toList,
                       "--pause-isolates-on-unhandled-exceptions".toList,
                       "--warn-on-pause-with-no-debugger".toList] })
  | none => (false, s)

/-- main.cc lines 471-495. -/
def ProcessShutdownOption (arg : CStr) (s : ParseState) : Bool × ParseState :=
  match arg with
  | [] => (true, { s with do_vm_shutdown := true,
                          vm_options := s.vm_options ++ ["--shutdown".toList] })
  | c :: rest =>
    if c ≠ '=' && c ≠ ':' then (false, s)
    else if rest = "true".toList then
      (true, { s with do_vm_shutdown := true,
                      vm_options := s.vm_options ++ ["--shutdown".toList] })
    else if rest = "false".toList then
      (true, { s with do_vm_shutdown := false,
                      vm_options := s.vm_options ++ ["--no-shutdown".toList] })
    else (false, s)

-- ---------------------------------------------------------------------------
-- The main-option table and ParseArguments (main.cc lines 498-663).
-- ---------------------------------------------------------------------------

/-- main.cc lines 498-524: the `main_options` table, in source order. -/
def main_options (cfg : BuildConfig) :
    List (CStr × (CStr → ParseState → Bool × ParseState)) :=
  [ ("-D".toList, ProcessEnvironmentOption),
    ("-h".toList, ProcessHelpOption),
    ("--help".toList, ProcessHelpOption),
    ("--packages=".toList, ProcessPackagesOption),
    ("--package-root=".toList, ProcessPackageRootOption),
    ("-v".toList, ProcessVerboseOption),
    ("--verbose".toList, ProcessVerboseOption),
    ("--version".toList, ProcessVersionOption),
    ("--compile_all".toList, ProcessCompileAllOption),
    ("--enable-vm-service".toList, ProcessEnableVmServiceOption),
    ("--gen-precompiled-snapshot".toList, ProcessGenPrecompiledSnapshotOption cfg),
    ("--observe".toList, ProcessObserveOption),
    ("--run-precompiled-snapshot".toList, ProcessRunPrecompiledSnapshotOption),
    ("--shutdown".toList, ProcessShutdownOption),
    ("--snapshot=".toList, ProcessScriptSnapshotOption cfg),
    ("--full-snapshot-after-run=".toList, ProcessFullSnapshotAfterRunOption cfg),
    ("--run-full-snapshot=".toList, ProcessRunFullSnapshotOption cfg),
    ("--trace-loading".toList, ProcessTraceLoadingOption) ]

/-- main.cc lines 527-543: walk the table; an entry applies when its name is a
prefix of the option.  If an entry's processor fails the walk continues with
the processor's (possibly mutated) state, exactly as the C loop does. -/
def processMainOptionsGo :
    List (CStr × (CStr → ParseState → Bool × ParseState)) → CStr → ParseState →
    Bool × ParseState
  | [], _, s => (false, s)
  | (nm, proc) :: rest, option, s =>
    if isPrefixOfC nm option then
      match proc (option.drop nm.length) s with
      | (true, s1) => (true, s1)
      | (false, s1) => processMainOptionsGo rest option s1
    else processMainOptionsGo rest option s

def ProcessMainOptions (cfg : BuildConfig) (option : CStr)
    (s : ParseState) : Bool × ParseState :=
  processMainOptionsGo (main_options cfg) option s

/-- main.cc lines 594-609: `--print-flags`/`--print_flags` and
`--verbose_debug`/`--verbose-debug` are noted by the embedder and then also
forwarded, like every other unrecognized `--` flag, to the VM options. -/
def notePassthroughFlags (a : CStr) (s : ParseState) : ParseState :=
  let s1 :=
    if isPrefixOfC ("--print-flags".toList) a ||
       isPrefixOfC ("--print_flags".toList) a then
      { s with print_flags_seen := true }
    else if isPrefixOfC ("--verbose_debug".toList) a ||
            isPrefixOfC ("--verbose-debug".toList) a then
      { s with verbose_debug_seen := true }
    else s
  { s1 with vm_options := s1.vm_options ++ [a] }

/-- The flag-scanning loop of `ParseArguments` (main.cc lines 565-612).
Returns the arguments not consumed as flags (the first of which becomes the
script name) and the final option state.  The `-p` special case mirrors the
source exactly: if the attached value is rejected the next argument is tried,
and if that also fails the loop reports the bad option and breaks after
skipping it. -/
def parseLoop (cfg : BuildConfig) : List CStr → ParseState → List CStr × ParseState
  | [], s => ([], s)
  | a :: rest, s =>
    match ProcessMainOptions cfg a s with
    | (true, s1) => parseLoop cfg rest s1
    | (false, s1) =>
      if isPrefixOfC ("-p".toList) a then
        match ProcessPackageRootOption (a.drop 2) s1 with
        | (true, s2) => parseLoop cfg rest s2
        | (false, s2) =>
          match rest with
          | [] => ([], s2)
          | b :: rest2 =>
            match ProcessPackageRootOption b s2 with
            | (true, s3) => parseLoop cfg rest2 s3
            | (false, s3) => (rest2, s3)
      else if isPrefixOfC ("-c".toList) a then
        parseLoop cfg rest
          { s1 with vm_options := s1.vm_options ++ ["--checked".toList] }
      else if !(IsValidFlag a ("--".toList)) then
        (a :: rest, s1)
      else
        parseLoop cfg rest (notePassthroughFlags a s1)

/-- Result of `ParseArguments`: `ok` carries the script name, the script
(dart) options and the final option state; `err` is the `-1` return (a
configuration error reported before any isolate exists). -/
inductive ParseResultT where
  | ok (script_name : CStr) (dart_options : List CStr) (s : ParseState)
  | err (s : ParseState)
deriving DecidableEq

def ParseResultT.isConfigError : ParseResultT → Bool
  | .err _ => true
  | .ok _ _ _ => false

/-- main.cc lines 548-663 (`ParseArguments`): scan flags, take the next
argument as the script name (error if none), collect the remaining arguments
as dart options, then run the cross-flag consistency checks in source order
(lines 631-660). -/
def ParseArguments (cfg : BuildConfig) (args : List CStr) : ParseResultT :=
  match parseLoop cfg args {} with
  | ([], s) => .err s
  | (script :: restArgs, s) =>
    if s.commandline_package_root.isSome && s.commandline_packages_file.isSome then
      .err s
    else if cfg.is_noopt && s.gen_precompiled_snapshot then .err s
    else if cfg.is_noopt && s.run_precompiled_snapshot then .err s
    else if s.run_full_snapshot && s.run_precompiled_snapshot then .err s
    else if (s.generate_full_snapshot_after_run || s.gen_precompiled_snapshot) &&
            (s.run_full_snapshot || s.run_precompiled_snapshot) then .err s
    else .ok script restArgs s

-- ---------------------------------------------------------------------------
-- Engine results and the CHECK_RESULT macros.
-- ---------------------------------------------------------------------------

/-- The classification of a `Dart_Handle` result by the engine predicates
used in main.cc: `Dart_IsError`, `Dart_IsCompilationError`, `Dart_IsApiError`
and `Dart_IsVMRestartRequest`.  `ok` is the non-error case. -/
inductive EngineResult where
  | ok
  | compilationError
  | apiError
  | restartRequest
  | otherError
deriving DecidableEq

/-- The exit-code classification of the first CHECK_RESULT macro
(main.cc lines 719-734), applied to an error result. -/
def exitCodeForError : EngineResult → Nat
  | .compilationError => kCompilationErrorExitCode
  | .apiError => kApiErrorExitCode
  | .restartRequest => kRestartRequestExitCode
  | _ => kErrorExitCode

/-- How one invocation of `RunMainIsolate` ends from the driver's point of
view: return true (restart requested), return false (normal completion), or
terminate the whole process with an exit code (`ErrorExit` / `Platform::Exit`
inside the call). -/
inductive RunOutcome where
  | restart
  | completed
  | procExit (code : Nat)
deriving DecidableEq

/-- The terminal action of the second CHECK_RESULT macro (main.cc lines
1235-1245), applied to an error result: a restart request returns true to the
driver, a compilation error exits 254, anything else exits 255. -/
def checkResultTerminal (r : EngineResult) : RunOutcome :=
  if r = .restartRequest then .restart
  else if r = .compilationError then .procExit kCompilationErrorExitCode
  else .procExit kErrorExitCode

-- ---------------------------------------------------------------------------
-- Snapshot codec: file names and write/read contracts.
-- ---------------------------------------------------------------------------

/-- main.cc lines 1077-1086 (shared by WriteSnapshotFile / ReadSnapshotFile /
LoadLibrarySymbol): prepend `directory ++ "/"` when a non-empty snapshot
directory was given. -/
def qualifiedFilename (directory : Option CStr) (filename : CStr) : CStr :=
  match directory with
  | some d => if d.length > 0 then d ++ ('/' :: filename) else filename
  | none => filename

/-- Modelled from the spec: `DartUtils::WriteMagicNumber` and the magic-number
bytes live in runtime/bin/dartutils.cc, which is not under src/; the spec
fixes only that a script snapshot carries a 4-byte magic-number prefix. -/
def kMagicNumber : List Nat := [245, 245, 220, 220]

/-- How a call to `WriteSnapshotFile` (main.cc lines 1072-1105) ends.
`fatalAssert` is the failed `ASSERT(file != NULL)` after `File::Open`;
`errorExit` is the `ErrorExit` on a short write.  There is no outcome that
continues with a partially written file. -/
inductive WriteOutcome where
  | fatalAssert
  | errorExit (code : Nat)
  | ok
deriving DecidableEq

/-- main.cc lines 1072-1105.  The file system is abstracted by two oracles:
whether opening the qualified file for truncating write succeeds, and whether
`WriteFully` writes all bytes.  On success the bytes written are the optional
magic number followed by the buffer. -/
def WriteSnapshotFile (openOk : CStr → Bool) (writeFullyOk : CStr → Bool)
    (snapshot_directory : Option CStr) (filename : CStr)
    (write_magic_number : Bool) (buffer : List Nat) :
    WriteOutcome × List Nat :=
  let qn := qualifiedFilename snapshot_directory filename
  if !openOk qn then (.fatalAssert, [])
  else
    let header := if write_magic_number then kMagicNumber else []
    if !writeFullyOk qn then (.errorExit kErrorExitCode, [])
    else (.ok, header ++ buffer)

/-- Modelled from the spec: `DartUtils::ReadFile` lives in
runtime/bin/dartutils.cc, which is not under src/.  Per the spec's read
contract a missing or empty file yields no usable buffer; main.cc line 1132
then checks `*buffer == NULL || len == -1`. -/
def DartUtils_ReadFile (contents : List Nat) : Option (List Nat) × Int :=
  if contents.isEmpty then (none, -1)
  else (some contents, (contents.length : Int))

/-- main.cc lines 1108-1142.  The file system is abstracted as a partial map
from (qualified) file names to contents; `none` is a file that cannot be
opened.  `Except.error code` is `Platform::Exit(code)`: execution does not
continue past the failed read. -/
def ReadSnapshotFile (fs : CStr → Option (List Nat))
    (snapshot_directory : Option CStr) (filename : CStr) :
    Except Nat (List Nat) :=
  let qn := qualifiedFilename snapshot_directory filename
  match fs qn with
  | none => .error kErrorExitCode
  | some contents =>
    match DartUtils_ReadFile contents with
    | (none, _) => .error kErrorExitCode
    | (some buf, len) => if len = -1 then .error kErrorExitCode else .ok buf

/-- main.cc lines 1145-1172.  Shared libraries are abstracted as a partial map
from (qualified) library names to symbol resolvers; a missing library or an
unresolved symbol terminates the process with `kErrorExitCode`. -/
def LoadLibrarySymbol (libs : CStr → Option (CStr → Option Nat))
    (snapshot_directory : Option CStr) (libname symname : CStr) :
    Except Nat Nat :=
  match libs (qualifiedFilename snapshot_directory libname) with
  | none => .error kErrorExitCode
  | some resolve =>
    match resolve symname with
    | none => .error kErrorExitCode
    | some symbol => .ok symbol

/-- main.cc lines 1188-1198: `snprintf("%s.%s", filename, suffix)` for the two
full-snapshot files. -/
def ComputeSnapshotFilenames (filename : CStr) : CStr × CStr :=
  (filename ++ ('.' :: kVMIsolateSuffix), filename ++ ('.' :: kIsolateSuffix))

-- ---------------------------------------------------------------------------
-- RunMainIsolate and the restart driver loop (main.cc lines 1248-1435,
-- 1659-1694).
-- ---------------------------------------------------------------------------

/-- A tag identifying which engine buffer a `WriteSnapshotFile` call wrote. -/
inductive SnapBuf where
  | script
  | vmIsolate
  | isolate
  | instructions
deriving DecidableEq

/-- One call to `WriteSnapshotFile`, recorded with the arguments main.cc
passes: snapshot directory, file name, whether the 4-byte magic number is
prepended, and which buffer was written. -/
structure WriteEvent where
  directory : Option CStr
  filename : CStr
  write_magic_number : Bool
  buffer : SnapBuf
deriving DecidableEq

/-- How `CreateIsolateAndSetupHelper` ends for the main isolate.
`failedResult e` is a NULL return through the first CHECK_RESULT macro with
error result `e` (so `exit_code` was set from `e`); `failedPlain` is a NULL
return that never went through the macro (e.g. `Dart_CreateIsolate` itself
failed), leaving `exit_code` at 0. -/
inductive CreateOutcome where
  | created
  | failedResult (e : EngineResult)
  | failedPlain
deriving DecidableEq

/-- The engine's behaviour during one bootstrap iteration: the outcome of
isolate creation and the results of the engine calls RunMainIsolate checks
(in source order).  Each field defaults to the non-error case. -/
structure IterationScript where
  createOutcome : CreateOutcome := .created
  vmServiceLoadOk : Bool := true
  compileAllResult : EngineResult := .ok
  precompileResult : EngineResult := .ok
  createPrecompiledSnapshotResult : EngineResult := .ok
  createScriptSnapshotResult : EngineResult := .ok
  rootLibIsNull : Bool := false
  mainClosureResult : EngineResult := .ok
  startMainIsolateResult : EngineResult := .ok
  runLoopResult : EngineResult := .ok
  createFullSnapshotResult : EngineResult := .ok
deriving DecidableEq

/-- The `WriteSnapshotFile` call made by `GenerateScriptSnapshot`
(main.cc lines 1175-1185): the single buffer, magic number included. -/
def GenerateScriptSnapshotWrites (s : ParseState) : List WriteEvent :=
  [WriteEvent.mk none (s.snapshot_filename.getD []) true .script]

/-- The two `WriteSnapshotFile` calls made by `GenerateFullSnapshot`
(main.cc lines 1200-1232), no magic number, paired file names derived from
the command-line snapshot filename. -/
def GenerateFullSnapshotWrites (s : ParseState) : List WriteEvent :=
  [WriteEvent.mk none (ComputeSnapshotFilenames (s.snapshot_filename.getD [])).1
      false .vmIsolate,
   WriteEvent.mk none (ComputeSnapshotFilenames (s.snapshot_filename.getD [])).2
      false .isolate]

/-- The three `WriteSnapshotFile` calls of the gen-precompiled branch
(main.cc lines 1359-1387): fixed file names inside the optional snapshot
directory, no magic number. -/
def GeneratePrecompiledSnapshotWrites (s : ParseState) : List WriteEvent :=
  [WriteEvent.mk s.precompiled_snapshot_directory kPrecompiledVmIsolateName
      false .vmIsolate,
   WriteEvent.mk s.precompiled_snapshot_directory kPrecompiledIsolateName
      false .isolate,
   WriteEvent.mk s.precompiled_snapshot_directory kPrecompiledInstructionsName
      false .instructions]

/-- main.cc lines 1248-1435 (`RunMainIsolate`): one full bootstrap iteration.
Returns how the call ends for the driver together with the snapshot-file
writes it performed.  The isolate-creation failure path (lines 1262-1281)
turns the restart sentinel into a true return and exits the process with the
recorded exit code (255 if none was recorded) otherwise. -/
def RunMainIsolate (cfg : BuildConfig) (s : ParseState)
    (it : IterationScript) : RunOutcome × List WriteEvent :=
  match it.createOutcome with
  | .failedResult e =>
    if exitCodeForError e = kRestartRequestExitCode then (.restart, [])
    else (.procExit (if exitCodeForError e ≠ 0 then exitCodeForError e
                     else kErrorExitCode), [])
  | .failedPlain => (.procExit kErrorExitCode, [])
  | .created =>
    if s.generate_script_snapshot then
      if it.createScriptSnapshotResult ≠ .ok then (.procExit kErrorExitCode, [])
      else (.completed, GenerateScriptSnapshotWrites s)
    else if (cfg.is_noopt || s.gen_precompiled_snapshot) && !it.vmServiceLoadOk then
      (.procExit kErrorExitCode, [])
    else if s.compile_all && it.compileAllResult ≠ .ok then
      (checkResultTerminal it.compileAllResult, [])
    else if (cfg.is_noopt || s.gen_precompiled_snapshot) &&
            it.precompileResult ≠ .ok then
      (checkResultTerminal it.precompileResult, [])
    else if s.gen_precompiled_snapshot then
      if it.createPrecompiledSnapshotResult ≠ .ok then
        (checkResultTerminal it.createPrecompiledSnapshotResult, [])
      else (.completed, GeneratePrecompiledSnapshotWrites s)
    else if it.rootLibIsNull then (.procExit kErrorExitCode, [])
    else if it.mainClosureResult ≠ .ok then
      (checkResultTerminal it.mainClosureResult, [])
    else if it.startMainIsolateResult ≠ .ok then
      (checkResultTerminal it.startMainIsolateResult, [])
    else
      if s.generate_full_snapshot_after_run &&
         !(it.runLoopResult = .compilationError) &&
         !(it.runLoopResult = .restartRequest) then
        if it.createFullSnapshotResult ≠ .ok then (.procExit kErrorExitCode, [])
        else if it.runLoopResult ≠ .ok then
          (checkResultTerminal it.runLoopResult, GenerateFullSnapshotWrites s)
        else (.completed, GenerateFullSnapshotWrites s)
      else
        if it.runLoopResult ≠ .ok then (checkResultTerminal it.runLoopResult, [])
        else (.completed, [])

/-- Modelled from the spec: `Process::GlobalExitCode` lives in
runtime/bin/process.h, which is not under src/.  Per the spec's exit-code
table a normally completing run exits 0 (scripts that set their own exit code
are outside this model). -/
def Process_GlobalExitCode : Nat := 0

/-- main.cc lines 1659-1662: `while (RunMainIsolate(...)) {}` driven by a list
of per-iteration engine behaviours.  Returns the number of bootstrap
iterations performed and the final outcome (`none` if the supplied behaviour
list ran out while the engine still requested restarts). -/
def driverLoop (cfg : BuildConfig) (s : ParseState) :
    List IterationScript → Nat → Nat × Option RunOutcome
  | [], n => (n, none)
  | it :: rest, n =>
    match (RunMainIsolate cfg s it).1 with
    | .restart => driverLoop cfg s rest (n + 1)
    | o => (n + 1, some o)

/-- The tail of `main` (main.cc lines 1659-1694): run the driver loop, then
exit with `Process::GlobalExitCode()` after a normal completion, or with the
code of the `ErrorExit`/`Platform::Exit` that ended the last iteration.
Returns (iterations performed, process exit code). -/
def mainLoopExit (cfg : BuildConfig) (s : ParseState)
    (its : List IterationScript) : Nat × Option Nat :=
  match driverLoop cfg s its 0 with
  | (n, some .completed) => (n, some Process_GlobalExitCode)
  | (n, some (.procExit c)) => (n, some c)
  | (n, some .restart) => (n, none)
  | (n, none) => (n, none)

/-- main.cc lines 866-889 (`CreateIsolateAndSetup`): the isolate-creation
callback the engine invokes (also for internally created isolates such as the
service isolate).  The helper call is abstracted as a parameter; the
package-root/package-map exclusion is checked before it runs, so both being
set yields an error and no isolate regardless of the helper. -/
def CreateIsolateAndSetup (helper : Unit → Option Nat × Option CStr)
    (package_root package_config : Option CStr) : Option Nat × Option CStr :=
  if package_root.isSome && package_config.isSome then
    (none,
     some ("Invalid arguments - Cannot simultaneously specify package root and package map.".toList))
  else helper ()

-- ---------------------------------------------------------------------------
-- Asset decompressor (main.cc lines 1449-1507).
-- ---------------------------------------------------------------------------

/-- The 256 KiB chunk size of `Decompress` (main.cc line 1460). -/
def kChunkSize : Nat := 256 * 1024

/-- Modelled from the spec: zlib is an external collaborator.  The return
codes of `inflate` that `Decompress` distinguishes: `Z_OK`, `Z_STREAM_END`,
and `Z_BUF_ERROR` — which, per zlib's documented contract, is returned
exactly when the call could make no forward progress (consumed no input and
produced no output) without having reached the end of the stream.  Any other
code is an error return. -/
inductive ZRet where
  | ok
  | streamEnd
  | bufError
  | otherErr
deriving DecidableEq

/-- One call to `inflate` with a full `kChunkSize` output window, described by
the bytes it produced in `chunk_out` and its return code.  After the call
`strm.avail_out = kChunkSize - out.length`. -/
structure InflateCall where
  out : List Nat
  ret : ZRet
deriving DecidableEq

/-- Modelled from the spec / zlib's contract: a call that makes zero progress
without signalling the end of the stream presents as `Z_BUF_ERROR`. -/
def isZeroProgressNonEnd (c : InflateCall) : Bool :=
  c.ret = .bufError

/-- The nested decompression loops of `Decompress` (main.cc lines 1473-1504),
driven by the sequence of `inflate` call behaviours.  `input_len` and
`input_cursor` track the outer loop's input chunking (main.cc lines
1475-1501); they do not influence which trace entry answers a call — the
abstract trace stands for zlib's state.  The `ASSERT((ret == Z_STREAM_END) ||
(ret == Z_OK))` at line 1490 is the `fault` outcome.  The inner loop repeats
while `avail_out == 0`, i.e. while the output window was filled completely;
the outer loop repeats until `ret == Z_STREAM_END`. -/
inductive DecompressResult where
  | done (output : List Nat)
  | fault
  | starved
deriving DecidableEq

def decompressLoop (input_len : Nat) :
    List InflateCall → Nat → List Nat → DecompressResult
  | [], _, _ => .starved
  | c :: rest, input_cursor, acc =>
    if c.ret ≠ .ok && c.ret ≠ .streamEnd then .fault
    else
      let acc1 := acc ++ c.out
      if c.out.length = kChunkSize then
        decompressLoop input_len rest input_cursor acc1
      else if c.ret = .streamEnd then .done acc1
      else
        decompressLoop input_len rest
          (input_cursor + min kChunkSize (input_len - input_cursor)) acc1

/-- main.cc lines 1449-1507 (`Decompress`): start with an empty output buffer
and the input cursor at 0. -/
def Decompress (input_len : Nat) (trace : List InflateCall) : DecompressResult :=
  decompressLoop input_len trace 0 []

-- ---------------------------------------------------------------------------
-- Theorems.
-- ---------------------------------------------------------------------------

/-- A successful parse passed every cross-flag consistency check of
main.cc lines 631-660. -/
theorem ParseArguments_ok_conditions (cfg : BuildConfig) (args : List CStr)
    (scr : CStr) (ds : List CStr) (s : ParseState)
    (h : ParseArguments cfg args = .ok scr ds s) :
    (s.commandline_package_root.isSome && s.commandline_packages_file.isSome) = false ∧
    (cfg.is_noopt && s.gen_precompiled_snapshot) = false ∧
    (cfg.is_noopt && s.run_precompiled_snapshot) = false ∧
    (s.run_full_snapshot && s.run_precompiled_snapshot) = false ∧
    ((s.generate_full_snapshot_after_run || s.gen_precompiled_snapshot) &&
      (s.run_full_snapshot || s.run_precompiled_snapshot)) = false := by
  unfold ParseArguments at h
  rcases hp : parseLoop cfg args {} with ⟨rest, st⟩
  rw [hp] at h
  cases rest with
  | nil => cases h
  | cons a l =>
    simp only at h
    split_ifs at h with h1 h2 h3 h4 h5
    cases h
    simp only [Bool.not_eq_true] at h1 h2 h3 h4 h5
    exact ⟨h1, h2, h3, h4, h5⟩

/-- Claim C3: an argument vector supplying both a package-root flag and a
packages-file flag fails with a ConfigError regardless of the order of the
two flags (a successful parse never records both), and the same mutual
exclusion is checked again at isolate-creation time: a creation request
carrying both a package root and a package config fails with an error and no
isolate is created, whatever the downstream helper would have done. -/
theorem package_root_packages_exclusive :
    (∀ cfg args scr ds s, ParseArguments cfg args = .ok scr ds s →
      (s.commandline_package_root.isSome &&
        s.commandline_packages_file.isSome) = false) ∧
    (ParseArguments stdBuild
      [ "--package-root=/a".toList, "--packages=/b".toList,
        "s.dart".toList ]).isConfigError = true ∧
    (ParseArguments stdBuild
      [ "--packages=/b".toList, "--package-root=/a".toList,
        "s.dart".toList ]).isConfigError = true ∧
    (∀ helper package_root package_config,
      package_root.isSome = true → package_config.isSome = true →
      CreateIsolateAndSetup helper package_root package_config =
        (none, some ("Invalid arguments - Cannot simultaneously specify package root and package map.".toList))) := by
  refine ⟨fun cfg args scr ds s h =>
    (ParseArguments_ok_conditions cfg args scr ds s h).1, by decide, by decide,
    fun helper package_root package_config h1 h2 => ?_⟩
  simp [CreateIsolateAndSetup, h1, h2]

/-- Witness for C3 at concrete inputs. -/
theorem package_root_packages_exclusive_witness :
    (({} : ParseState).commandline_package_root.isSome &&
      ({} : ParseState).commandline_packages_file.isSome) = false ∧
    CreateIsolateAndSetup (fun _ => (some 1, none)) (some ("/a".toList))
        (some ("/b".toList)) =
      (none, some ("Invalid arguments - Cannot simultaneously specify package root and package map.".toList)) :=
  ⟨package_root_packages_exclusive.1 stdBuild [ "s.dart".toList ]
      ("s.dart".toList) [] {} (by decide),
   package_root_packages_exclusive.2.2.2 (fun _ => (some 1, none))
      (some ("/a".toList)) (some ("/b".toList)) rfl rfl⟩

/-- Claim C2 counterexample: in the dart_bootstrap build configuration the
argument vector `--full-snapshot-after-run=x --gen-precompiled-snapshot
script` parses successfully with BOTH generate-mode flags recorded, so
argument parsing does not assign exactly one run mode for every argument
vector. -/
theorem run_mode_not_unique_counterexample :
    (match ParseArguments bootstrapBuild
        [ "--full-snapshot-after-run=x".toList,
          "--gen-precompiled-snapshot".toList, "script".toList ] with
     | .ok _ _ s => s.generate_full_snapshot_after_run && s.gen_precompiled_snapshot
     | .err _ => false) = true := by decide

/-- Claim C2 (amended): every listed mutually exclusive pair — a generate
mode (full-snapshot-after-run or gen-precompiled-snapshot) combined with a
run-from-snapshot mode, or both run-from-snapshot modes together — makes
parsing fail with a ConfigError (no successful parse records such a pair, in
any build configuration); however a successful parse may still record two
generate modes together, so parsing does not always assign exactly one run
mode. -/
theorem exclusive_mode_pairs_rejected (cfg : BuildConfig) (args : List CStr)
    (scr : CStr) (ds : List CStr) (s : ParseState)
    (h : ParseArguments cfg args = .ok scr ds s) :
    ((s.generate_full_snapshot_after_run || s.gen_precompiled_snapshot) &&
      (s.run_full_snapshot || s.run_precompiled_snapshot)) = false ∧
    (s.run_full_snapshot && s.run_precompiled_snapshot) = false ∧
    (ParseArguments productBuild
      [ "--run-full-snapshot=f".toList, "--run-precompiled-snapshot:d".toList,
        "s".toList ]).isConfigError = true ∧
    (ParseArguments bootstrapBuild
      [ "--full-snapshot-after-run=x".toList,
        "--run-precompiled-snapshot:d".toList, "s".toList ]).isConfigError = true :=
  ⟨(ParseArguments_ok_conditions cfg args scr ds s h).2.2.2.2,
   (ParseArguments_ok_conditions cfg args scr ds s h).2.2.2.1,
   by decide, by decide⟩

/-- Witness for C2's amended theorem at a concrete successful parse. -/
theorem exclusive_mode_pairs_rejected_witness :
    ((({} : ParseState).generate_full_snapshot_after_run ||
        ({} : ParseState).gen_precompiled_snapshot) &&
      (({} : ParseState).run_full_snapshot ||
        ({} : ParseState).run_precompiled_snapshot)) = false ∧
    (({} : ParseState).run_full_snapshot &&
      ({} : ParseState).run_precompiled_snapshot) = false ∧
    (ParseArguments productBuild
      [ "--run-full-snapshot=f".toList, "--run-precompiled-snapshot:d".toList,
        "s".toList ]).isConfigError = true ∧
    (ParseArguments bootstrapBuild
      [ "--full-snapshot-after-run=x".toList,
        "--run-precompiled-snapshot:d".toList, "s".toList ]).isConfigError = true :=
  exclusive_mode_pairs_rejected stdBuild [ "s".toList ] ("s".toList) [] {}
    (by decide)

/-- Claim C10 counterexample: `-Dfoo` (no '=') and `-D=bar` (empty name) do
NOT terminate argument parsing with an error — parsing succeeds, with the
malformed define taken as the script path (and the environment table merely
allocated empty). -/
theorem dash_d_malformed_not_parse_error :
    (ParseArguments stdBuild [ "-Dfoo".toList, "script.dart".toList ] =
      .ok ("-Dfoo".toList) ["script.dart".toList] { environment := some [] }) ∧
    (ParseArguments stdBuild [ "-D=bar".toList, "script.dart".toList ] =
      .ok ("-D=bar".toList) ["script.dart".toList] { environment := some [] }) := by
  constructor <;> decide

/-- Claim C10 (amended): a bare `-D` is accepted and ignored by the -D option
processor (parsing succeeds and nothing is defined), while `-D<name>` with no
'=' and `-D=<value>` with an empty name are rejected by the -D option
processor; that rejection however does not terminate argument parsing with an
error — the malformed argument ends flag scanning, becomes the script path,
and parsing succeeds. -/
theorem dash_d_edge_cases :
    (∀ s, ProcessEnvironmentOption [] s = (true, s)) ∧
    (∀ arg s, splitAtFirstEqChars arg = none → arg ≠ [] →
      (ProcessEnvironmentOption arg s).1 = false) ∧
    (∀ v s, (ProcessEnvironmentOption ('=' :: v) s).1 = false) ∧
    (ParseArguments stdBuild [ "-D".toList, "script.dart".toList ] =
      .ok ("script.dart".toList) [] {}) ∧
    (ParseArguments stdBuild [ "-Dfoo".toList, "script.dart".toList ]).isConfigError = false := by
  refine ⟨fun s => by simp [ProcessEnvironmentOption],
    fun arg s h hne => ?_, fun v s => ?_, by decide, by decide⟩
  · simp [ProcessEnvironmentOption, hne, h]
  · simp [ProcessEnvironmentOption, splitAtFirstEqChars]

/-- Witness for C10's amended theorem at concrete inputs. -/
theorem dash_d_edge_cases_witness :
    ProcessEnvironmentOption [] {} = (true, {}) ∧
    (ProcessEnvironmentOption ("foo".toList) {}).1 = false ∧
    (ProcessEnvironmentOption ('=' :: ("bar".toList)) {}).1 = false :=
  ⟨dash_d_edge_cases.1 {},
   dash_d_edge_cases.2.1 ("foo".toList) {} (by decide) (by decide),
   dash_d_edge_cases.2.2.1 ("bar".toList) {}⟩

-- ---------------------------------------------------------------------------
-- C8: environment lookup.
-- ---------------------------------------------------------------------------

theorem envLookup_envInsert (t : List (CStr × CStr)) (n v : CStr) :
    envLookup (envInsert t n v) n = some v := by
  induction t with
  | nil => simp [envInsert, envLookup]
  | cons p rest ih =>
    rcases p with ⟨k, w⟩
    by_cases hk : k = n
    · simp [envInsert, envLookup, hk]
    · simp [envInsert, envLookup, hk, ih]

theorem envLookup_envInsert_ne (t : List (CStr × CStr)) (n v m : CStr)
    (h : m ≠ n) : envLookup (envInsert t n v) m = envLookup t m := by
  induction t with
  | nil =>
    have hnm : ¬ (n = m) := fun hc => h hc.symm
    simp [envInsert, envLookup, hnm]
  | cons p rest ih =>
    rcases p with ⟨k, w⟩
    by_cases hk : k = n
    · subst hk
      have hkm : ¬ (k = m) := fun hc => h hc.symm
      simp [envInsert, envLookup, hkm]
    · simp [envInsert, envLookup, hk, ih]

/-- The value of the most recent (= latest) define for a name in a sequence
of defines, stated directly from the claim's wording. -/
def lastDefine : List (CStr × CStr) → CStr → Option CStr
  | [], _ => none
  | (k, v) :: rest, n =>
    match lastDefine rest n with
    | some w => some w
    | none => if k = n then some v else none

/-- Folding a sequence of `-D` defines through the hash-map insertion used by
`ProcessEnvironmentOption`. -/
def applyDefines (defines : List (CStr × CStr)) : List (CStr × CStr) :=
  defines.foldl (fun t p => envInsert t p.1 p.2) []

theorem envLookup_foldl (defines : List (CStr × CStr))
    (t : List (CStr × CStr)) (n : CStr) :
    envLookup (defines.foldl (fun t p => envInsert t p.1 p.2) t) n =
      match lastDefine defines n with
      | some w => some w
      | none => envLookup t n := by
  induction defines generalizing t with
  | nil => simp [lastDefine]
  | cons p rest ih =>
    rcases p with ⟨k, v⟩
    rw [List.foldl_cons, ih (envInsert t k v)]
    cases hrest : lastDefine rest n with
    | some w => simp [lastDefine, hrest]
    | none =>
      by_cases hk : k = n
      · subst hk
        simp [lastDefine, hrest, envLookup_envInsert]
      · have hne : n ≠ k := fun hc => hk hc.symm
        simp [lastDefine, hrest, hk, envLookup_envInsert_ne t k v n hne]

/-- Claim C8: the environment-lookup callback returns the value of the most
recent define for a name (after `-Dfoo=bar`, looking up "foo" yields "bar"),
returns absent for a name never defined, and — when no define has happened at
all, so the table was never allocated — returns absent for every name instead
of failing. -/
theorem environment_lookup_most_recent :
    (∀ n, EnvironmentCallback none n = none) ∧
    (∀ table n, EnvironmentCallback (some table) n = envLookup table n) ∧
    (∀ defines n, envLookup (applyDefines defines) n = lastDefine defines n) ∧
    (∀ t n v, envLookup (envInsert t n v) n = some v) ∧
    (∀ t n v m, m ≠ n → envLookup (envInsert t n v) m = envLookup t m) ∧
    (EnvironmentCallback
        (match ParseArguments stdBuild
            [ "-Dfoo=bar".toList, "script.dart".toList ] with
         | .ok _ _ s => s.environment
         | .err s => s.environment) ("foo".toList) = some ("bar".toList)) ∧
    (EnvironmentCallback
        (match ParseArguments stdBuild
            [ "-Dfoo=bar".toList, "script.dart".toList ] with
         | .ok _ _ s => s.environment
         | .err s => s.environment) ("missing".toList) = none) := by
  refine ⟨fun n => rfl, fun table n => rfl, fun defines n => ?_,
    envLookup_envInsert, fun t n v m h => envLookup_envInsert_ne t n v m h,
    by decide, by decide⟩
  rw [applyDefines, envLookup_foldl]
  cases lastDefine defines n <;> simp [envLookup]

/-- Witness for C8 at concrete inputs. -/
theorem environment_lookup_most_recent_witness :
    envLookup (envInsert [] ("a".toList) ("1".toList)) ("b".toList) =
      envLookup [] ("b".toList) :=
  environment_lookup_most_recent.2.2.2.2.1 [] ("a".toList) ("1".toList)
    ("b".toList) (by decide)

-- ---------------------------------------------------------------------------
-- C7: --enable-vm-service port/ip parsing.
-- ---------------------------------------------------------------------------

/-- The numeric value of a decimal digit string, folded left. -/
def digitsFold (acc : Nat) (ds : CStr) : Nat :=
  ds.foldl (fun a c => a * 10 + (c.toNat - 48)) acc

theorem isCSpace_eq_false_of_isDigit (c : Char) (h : c.isDigit = true) :
    isCSpace c = false := by
  by_contra hcs
  rw [Bool.not_eq_false] at hcs
  simp only [isCSpace, Bool.or_eq_true, decide_eq_true_eq] at hcs
  rcases hcs with ((((h1 | h1) | h1) | h1) | h1) | h1 <;> subst h1 <;>
    exact absurd h (by decide)

theorem ne_of_isDigit (c : Char) (d : Char) (h : c.isDigit = true)
    (hd : d.isDigit = false) : c ≠ d := by
  intro hc
  subst hc
  rw [h] at hd
  cases hd

theorem takeDigitsAcc_append : ∀ (ds rest : CStr) (acc : Nat),
    (∀ c ∈ ds, c.isDigit = true) →
    (∀ c, rest.head? = some c → c.isDigit = false) →
    takeDigitsAcc (ds ++ rest) acc = (digitsFold acc ds, rest) := by
  intro ds
  induction ds with
  | nil =>
    intro rest acc _ hrest
    cases rest with
    | nil => simp [takeDigitsAcc, digitsFold]
    | cons c r =>
      have hc := hrest c rfl
      simp [takeDigitsAcc, digitsFold, hc]
  | cons d ds' ih =>
    intro rest acc hds hrest
    have hd : d.isDigit = true := hds d (List.mem_cons_self d ds')
    simp only [List.cons_append, takeDigitsAcc, hd, if_true, digitsFold,
      List.foldl_cons]
    exact ih rest (acc * 10 + (d.toNat - 48))
      (fun c hc => hds c (List.mem_cons_of_mem d hc)) hrest

theorem skipSpace_digit (d : Char) (l : CStr) (h : d.isDigit = true) :
    skipSpace (d :: l) = d :: l := by
  simp [skipSpace, isCSpace_eq_false_of_isDigit d h]

theorem atoiChars_digits (ds rest : CStr) (hne : ds ≠ [])
    (hds : ∀ c ∈ ds, c.isDigit = true)
    (hrest : ∀ c, rest.head? = some c → c.isDigit = false) :
    atoiChars (ds ++ rest) = (digitsFold 0 ds : Int) := by
  cases ds with
  | nil => exact absurd rfl hne
  | cons d ds' =>
    have hd : d.isDigit = true := hds d (List.mem_cons_self d ds')
    have hm : d ≠ '-' := ne_of_isDigit d '-' hd (by decide)
    have hp : d ≠ '+' := ne_of_isDigit d '+' hd (by decide)
    unfold atoiChars
    rw [List.cons_append, skipSpace_digit d (ds' ++ rest) hd]
    simp only [hm, hp, if_false]
    rw [show d :: (ds' ++ rest) = (d :: ds') ++ rest from rfl,
      takeDigitsAcc_append (d :: ds') rest 0 hds hrest]

theorem scanInt_digits (ds rest : CStr) (hne : ds ≠ [])
    (hds : ∀ c ∈ ds, c.isDigit = true)
    (hrest : ∀ c, rest.head? = some c → c.isDigit = false) :
    scanInt (ds ++ rest) = some ((digitsFold 0 ds : Int), rest) := by
  cases ds with
  | nil => exact absurd rfl hne
  | cons d ds' =>
    have hd : d.isDigit = true := hds d (List.mem_cons_self d ds')
    have hm : d ≠ '-' := ne_of_isDigit d '-' hd (by decide)
    have hp : d ≠ '+' := ne_of_isDigit d '+' hd (by decide)
    unfold scanInt
    rw [List.cons_append, skipSpace_digit d (ds' ++ rest) hd]
    simp only [hm, hp, if_false, hd, if_true]
    rw [show d :: (ds' ++ rest) = (d :: ds') ++ rest from rfl,
      takeDigitsAcc_append (d :: ds') rest 0 hds hrest]

theorem afterFirstSlash_of_no_slash : ∀ (l : CStr),
    (∀ c ∈ l, ¬ c = '/') → afterFirstSlash l = none := by
  intro l
  induction l with
  | nil => intro _; rfl
  | cons c r ih =>
    intro h
    have hc : ¬ c = '/' := h c (List.mem_cons_self c r)
    simp only [afterFirstSlash, hc, if_false]
    exact ih (fun x hx => h x (List.mem_cons_of_mem c hx))

theorem afterFirstSlash_append : ∀ (p q : CStr),
    (∀ c ∈ p, ¬ c = '/') → afterFirstSlash (p ++ '/' :: q) = some q := by
  intro p
  induction p with
  | nil => intro q _; simp [afterFirstSlash]
  | cons c r ih =>
    intro q h
    have hc : ¬ c = '/' := h c (List.mem_cons_self c r)
    simp only [List.cons_append, afterFirstSlash, hc, if_false]
    exact ih q (fun x hx => h x (List.mem_cons_of_mem c hx))

theorem head_cons_not_digit (k : Char) (l : CStr) (hk : k.isDigit = false) :
    ∀ c, ((k :: l).head? = some c) → c.isDigit = false := by
  intro c hc
  rw [List.head?_cons, Option.some.injEq] at hc
  rw [← hc]
  exact hk

theorem head_nil_not_digit : ∀ c, (([] : CStr).head? = some c) → c.isDigit = false := by
  intro c hc
  simp at hc

theorem scanInt_digits_nil (ds : CStr) (hne : ds ≠ [])
    (hds : ∀ c ∈ ds, c.isDigit = true) :
    scanInt ds = some ((digitsFold 0 ds : Int), []) := by
  have h := scanInt_digits ds [] hne hds head_nil_not_digit
  rwa [List.append_nil] at h

theorem sscanfPortIp_full (ds a b c4 d4 : CStr)
    (hds : ds ≠ []) (hds2 : ∀ x ∈ ds, x.isDigit = true)
    (ha : a ≠ []) (ha2 : ∀ x ∈ a, x.isDigit = true)
    (hb : b ≠ []) (hb2 : ∀ x ∈ b, x.isDigit = true)
    (hc : c4 ≠ []) (hc2 : ∀ x ∈ c4, x.isDigit = true)
    (hd : d4 ≠ []) (hd2 : ∀ x ∈ d4, x.isDigit = true) :
    sscanfPortIp (ds ++ '/' :: (a ++ '.' :: (b ++ '.' :: (c4 ++ '.' :: d4)))) =
      some (ds ++ '/' :: (a ++ '.' :: (b ++ '.' :: (c4 ++ '.' :: d4)))).length := by
  have e1 := scanInt_digits ds ('/' :: (a ++ '.' :: (b ++ '.' :: (c4 ++ '.' :: d4))))
    hds hds2 (head_cons_not_digit '/' _ (by decide))
  have e2 := scanInt_digits a ('.' :: (b ++ '.' :: (c4 ++ '.' :: d4)))
    ha ha2 (head_cons_not_digit '.' _ (by decide))
  have e3 := scanInt_digits b ('.' :: (c4 ++ '.' :: d4))
    hb hb2 (head_cons_not_digit '.' _ (by decide))
  have e4 := scanInt_digits c4 ('.' :: d4) hc hc2 (head_cons_not_digit '.' _ (by decide))
  have e5 := scanInt_digits_nil d4 hd hd2
  simp [sscanfPortIp, e1, e2, e3, e4, e5, scanLit]

theorem ExtractPortAndIP_port_ip (ds a b c4 d4 : CStr) (dp : Int) (dip : CStr)
    (hds : ds ≠ []) (hds2 : ∀ x ∈ ds, x.isDigit = true)
    (ha : a ≠ []) (ha2 : ∀ x ∈ a, x.isDigit = true)
    (hb : b ≠ []) (hb2 : ∀ x ∈ b, x.isDigit = true)
    (hc : c4 ≠ []) (hc2 : ∀ x ∈ c4, x.isDigit = true)
    (hd : d4 ≠ []) (hd2 : ∀ x ∈ d4, x.isDigit = true) :
    ExtractPortAndIP
        (':' :: (ds ++ '/' :: (a ++ '.' :: (b ++ '.' :: (c4 ++ '.' :: d4)))))
        dp dip =
      some ((digitsFold 0 ds : Int),
            a ++ '.' :: (b ++ '.' :: (c4 ++ '.' :: d4))) := by
  have hport := atoiChars_digits ds ('/' :: (a ++ '.' :: (b ++ '.' :: (c4 ++ '.' :: d4))))
    hds hds2 (head_cons_not_digit '/' _ (by decide))
  have hslash : ∀ x ∈ ds, ¬ x = '/' :=
    fun x hx => ne_of_isDigit x '/' (hds2 x hx) (by decide)
  have hafs := afterFirstSlash_append ds
    (a ++ '.' :: (b ++ '.' :: (c4 ++ '.' :: d4))) hslash
  have hscan := sscanfPortIp_full ds a b c4 d4 hds hds2 ha ha2 hb hb2 hc hc2 hd hd2
  have hdrop :
      (':' :: (ds ++ '/' :: (a ++ '.' :: (b ++ '.' :: (c4 ++ '.' :: d4))))).drop
        (1 + (ds ++ '/' :: (a ++ '.' :: (b ++ '.' :: (c4 ++ '.' :: d4)))).length)
        = ([] : CStr) := by
    rw [Nat.add_comm, List.drop_succ_cons, List.drop_length]
  simp only [ExtractPortAndIP, afterFirstSlash, show ('/' : Char) ≠ ':' from by decide,
    hport, hafs, hscan, hdrop]
  simp

theorem ExtractPortAndIP_port_only (ds : CStr) (dp : Int) (dip : CStr)
    (hds : ds ≠ []) (hds2 : ∀ x ∈ ds, x.isDigit = true) :
    ExtractPortAndIP (':' :: ds) dp dip = some ((digitsFold 0 ds : Int), dip) := by
  have hport : atoiChars ds = (digitsFold 0 ds : Int) := by
    have h := atoiChars_digits ds [] hds hds2 head_nil_not_digit
    rwa [List.append_nil] at h
  have hslash : ∀ x ∈ ds, ¬ x = '/' :=
    fun x hx => ne_of_isDigit x '/' (hds2 x hx) (by decide)
  have hafs := afterFirstSlash_of_no_slash ds hslash
  simp only [ExtractPortAndIP, afterFirstSlash, hport, hafs]
  simp

theorem ExtractPortAndIP_reject (c : Char) (rest : CStr) (dp : Int) (dip : CStr)
    (h1 : c ≠ ':') (h2 : c ≠ '=') :
    ExtractPortAndIP (c :: rest) dp dip = none := by
  simp [ExtractPortAndIP, h1, h2]

/-- Claim C7: parsing the introspection-server flag value yields port 8181 and
ip "127.0.0.1" when the flag is given with an empty value; a value
":<port>/<ipv4>" (e.g. ":9999/0.0.0.0") yields exactly that port and that ip
string; ":<port>" with no slash yields that port with the default ip; and a
value not starting with ':' or '=' is rejected as a parse failure. -/
theorem vm_service_port_ip_parsing :
    (∀ s, ProcessEnableVmServiceOption [] s =
      (true, { s with vm_service_server_port := 8181,
                      vm_service_server_ip := "127.0.0.1".toList })) ∧
    (∀ ds a b c4 d4, ds ≠ [] → (∀ x ∈ ds, x.isDigit = true) →
      a ≠ [] → (∀ x ∈ a, x.isDigit = true) →
      b ≠ [] → (∀ x ∈ b, x.isDigit = true) →
      c4 ≠ [] → (∀ x ∈ c4, x.isDigit = true) →
      d4 ≠ [] → (∀ x ∈ d4, x.isDigit = true) →
      ExtractPortAndIP
          (':' :: (ds ++ '/' :: (a ++ '.' :: (b ++ '.' :: (c4 ++ '.' :: d4)))))
          DEFAULT_VM_SERVICE_SERVER_PORT DEFAULT_VM_SERVICE_SERVER_IP =
        some ((digitsFold 0 ds : Int),
              a ++ '.' :: (b ++ '.' :: (c4 ++ '.' :: d4)))) ∧
    (∀ ds, ds ≠ [] → (∀ x ∈ ds, x.isDigit = true) →
      ExtractPortAndIP (':' :: ds) DEFAULT_VM_SERVICE_SERVER_PORT
          DEFAULT_VM_SERVICE_SERVER_IP =
        some ((digitsFold 0 ds : Int), DEFAULT_VM_SERVICE_SERVER_IP)) ∧
    (∀ c rest s, c ≠ ':' → c ≠ '=' →
      ProcessEnableVmServiceOption (c :: rest) s = (false, s)) ∧
    (ExtractPortAndIP (":9999/0.0.0.0".toList) DEFAULT_VM_SERVICE_SERVER_PORT
        DEFAULT_VM_SERVICE_SERVER_IP = some (9999, "0.0.0.0".toList)) := by
  refine ⟨fun s => ?_,
    fun ds a b c4 d4 h1 h2 h3 h4 h5 h6 h7 h8 h9 h10 =>
      ExtractPortAndIP_port_ip ds a b c4 d4 _ _ h1 h2 h3 h4 h5 h6 h7 h8 h9 h10,
    fun ds h1 h2 => ExtractPortAndIP_port_only ds _ _ h1 h2,
    fun c rest s h1 h2 => ?_, by decide⟩
  · simp [ProcessEnableVmServiceOption, ExtractPortAndIP,
      DEFAULT_VM_SERVICE_SERVER_PORT, DEFAULT_VM_SERVICE_SERVER_IP]
  · simp [ProcessEnableVmServiceOption, ExtractPortAndIP_reject c rest _ _ h1 h2]

/-- Witness for C7 at concrete inputs, including ":9999/0.0.0.0". -/
theorem vm_service_port_ip_parsing_witness :
    (ExtractPortAndIP
        (':' :: ("9999".toList ++ '/' ::
          ("0".toList ++ '.' :: ("0".toList ++ '.' :: ("0".toList ++ '.' :: "0".toList)))))
        DEFAULT_VM_SERVICE_SERVER_PORT DEFAULT_VM_SERVICE_SERVER_IP =
      some ((digitsFold 0 ("9999".toList) : Int),
            "0".toList ++ '.' :: ("0".toList ++ '.' :: ("0".toList ++ '.' :: "0".toList)))) ∧
    ProcessEnableVmServiceOption ('x' :: []) {} = (false, {}) :=
  ⟨vm_service_port_ip_parsing.2.1 ("9999".toList) ("0".toList) ("0".toList)
      ("0".toList) ("0".toList) (by decide) (by decide) (by decide) (by decide)
      (by decide) (by decide) (by decide) (by decide) (by decide) (by decide),
   vm_service_port_ip_parsing.2.2.2.1 'x' [] {} (by decide) (by decide)⟩

/-- Claim C4: snapshot file I/O has no partial-success or retry path.  A
snapshot write ends fatally (failed open assert, or ErrorExit 255 on a short
write); a snapshot read ends the process with exit code 255 when the file is
missing or empty; resolving the precompiled library or one of its symbols
ends the process with exit code 255 when it is unresolved.  In each case the
result is an error exit code (255 ≠ 0) and execution does not continue past
the failed operation (no `.ok` result exists for these inputs). -/
theorem snapshot_io_failures_fatal :
    (∀ openOk writeFullyOk dir fn magic buf,
      openOk (qualifiedFilename dir fn) = false →
      (WriteSnapshotFile openOk writeFullyOk dir fn magic buf).1 = .fatalAssert) ∧
    (∀ openOk writeFullyOk dir fn magic buf,
      openOk (qualifiedFilename dir fn) = true →
      writeFullyOk (qualifiedFilename dir fn) = false →
      (WriteSnapshotFile openOk writeFullyOk dir fn magic buf).1 =
        .errorExit kErrorExitCode) ∧
    (∀ fs dir fn, fs (qualifiedFilename dir fn) = none →
      ReadSnapshotFile fs dir fn = .error kErrorExitCode) ∧
    (∀ fs dir fn, fs (qualifiedFilename dir fn) = some [] →
      ReadSnapshotFile fs dir fn = .error kErrorExitCode) ∧
    (∀ libs dir ln sn, libs (qualifiedFilename dir ln) = none →
      LoadLibrarySymbol libs dir ln sn = .error kErrorExitCode) ∧
    (∀ libs resolve dir ln sn, libs (qualifiedFilename dir ln) = some resolve →
      resolve sn = none →
      LoadLibrarySymbol libs dir ln sn = .error kErrorExitCode) ∧
    kErrorExitCode ≠ 0 := by
  refine ⟨fun openOk writeFullyOk dir fn magic buf h => ?_,
    fun openOk writeFullyOk dir fn magic buf h1 h2 => ?_,
    fun fs dir fn h => ?_, fun fs dir fn h => ?_,
    fun libs dir ln sn h => ?_, fun libs resolve dir ln sn h1 h2 => ?_,
    by decide⟩
  · simp [WriteSnapshotFile, h]
  · simp [WriteSnapshotFile, h1, h2]
  · simp [ReadSnapshotFile, h]
  · simp [ReadSnapshotFile, h, DartUtils_ReadFile]
  · simp [LoadLibrarySymbol, h]
  · simp [LoadLibrarySymbol, h1, h2]

/-- Witness for C4 at concrete file-system behaviours. -/
theorem snapshot_io_failures_fatal_witness :
    (WriteSnapshotFile (fun _ => false) (fun _ => true) none ("f".toList)
        false []).1 = .fatalAssert ∧
    (WriteSnapshotFile (fun _ => true) (fun _ => false) none ("f".toList)
        false []).1 = .errorExit kErrorExitCode ∧
    ReadSnapshotFile (fun _ => none) none ("f".toList) = .error kErrorExitCode ∧
    ReadSnapshotFile (fun _ => some []) none ("f".toList) = .error kErrorExitCode ∧
    LoadLibrarySymbol (fun _ => none) none ("l".toList) ("s".toList) =
      .error kErrorExitCode ∧
    LoadLibrarySymbol (fun _ => some (fun _ => none)) none ("l".toList)
        ("s".toList) = .error kErrorExitCode :=
  ⟨snapshot_io_failures_fatal.1 (fun _ => false) (fun _ => true) none
      ("f".toList) false [] rfl,
   snapshot_io_failures_fatal.2.1 (fun _ => true) (fun _ => false) none
      ("f".toList) false [] rfl rfl,
   snapshot_io_failures_fatal.2.2.1 (fun _ => none) none ("f".toList) rfl,
   snapshot_io_failures_fatal.2.2.2.1 (fun _ => some []) none ("f".toList) rfl,
   snapshot_io_failures_fatal.2.2.2.2.1 (fun _ => none) none ("l".toList)
      ("s".toList) rfl,
   snapshot_io_failures_fatal.2.2.2.2.2.1 (fun _ => some (fun _ => none))
      (fun _ => none) none ("l".toList) ("s".toList) rfl rfl⟩

theorem decompressLoop_done (input_len : Nat) :
    ∀ (ts : List InflateCall) (te : InflateCall) (cursor : Nat) (acc : List Nat),
    (∀ t ∈ ts, t.ret = .ok) → te.ret = .streamEnd → te.out.length < kChunkSize →
    decompressLoop input_len (ts ++ [te]) cursor acc =
      .done (acc ++ ((ts ++ [te]).map InflateCall.out).flatten) := by
  intro ts
  induction ts with
  | nil =>
    intro te cursor acc _ hend hlen
    simp [decompressLoop, hend, Nat.ne_of_lt hlen]
  | cons t ts' ih =>
    intro te cursor acc hok hend hlen
    have ht : t.ret = .ok := hok t (List.mem_cons_self t ts')
    have hok' : ∀ x ∈ ts', x.ret = .ok :=
      fun x hx => hok x (List.mem_cons_of_mem t hx)
    by_cases hfull : t.out.length = kChunkSize <;>
      simp [decompressLoop, ht, hfull, ih te _ (acc ++ t.out) hok' hend hlen,
        List.append_assoc]

/-- Claim C9: a call to inflate that makes zero progress without reaching the
stream-end marker (Z_BUF_ERROR under zlib's contract — a fortiori any return
other than Z_OK/Z_STREAM_END) fails the assert and is an unrecoverable
decoder fault; and when every call makes progress — Z_OK results until a
final Z_STREAM_END — the chunked decompression loop terminates with the
concatenation of all produced chunks, the fully decompressed buffer. -/
theorem decompress_progress_and_termination :
    (∀ input_len c rest cursor acc, c.ret ≠ ZRet.ok → c.ret ≠ ZRet.streamEnd →
      decompressLoop input_len (c :: rest) cursor acc = .fault) ∧
    (∀ c, isZeroProgressNonEnd c = true →
      c.ret ≠ ZRet.ok ∧ c.ret ≠ ZRet.streamEnd) ∧
    (∀ input_len c rest, isZeroProgressNonEnd c = true →
      Decompress input_len (c :: rest) = .fault) ∧
    (∀ input_len ts te, (∀ t ∈ ts, t.ret = ZRet.ok) → te.ret = ZRet.streamEnd →
      te.out.length < kChunkSize →
      Decompress input_len (ts ++ [te]) =
        .done (((ts ++ [te]).map InflateCall.out).flatten)) := by
  refine ⟨fun input_len c rest cursor acc h1 h2 => by
      simp [decompressLoop, h1, h2],
    fun c h => ?_, fun input_len c rest h => ?_,
    fun input_len ts te hok hend hlen => ?_⟩
  · rw [isZeroProgressNonEnd, decide_eq_true_eq] at h
    rw [h]
    exact ⟨by simp, by simp⟩
  · rw [isZeroProgressNonEnd, decide_eq_true_eq] at h
    simp [Decompress, decompressLoop, h]
  · rw [Decompress, decompressLoop_done input_len ts te 0 [] hok hend hlen]
    simp

/-- Witness for C9 at a concrete trace: one full Z_OK chunk then a short
Z_STREAM_END chunk, and a faulting Z_BUF_ERROR trace. -/
theorem decompress_progress_and_termination_witness :
    Decompress 4 [InflateCall.mk [7] ZRet.ok, InflateCall.mk [8, 9] ZRet.streamEnd] =
      .done [7, 8, 9] ∧
    Decompress 4 [InflateCall.mk [] ZRet.bufError] = .fault := by
  constructor
  · have h := decompress_progress_and_termination.2.2.2 4
      [InflateCall.mk [7] ZRet.ok] (InflateCall.mk [8, 9] ZRet.streamEnd)
      (by decide) rfl (by decide)
    simpa using h
  · exact decompress_progress_and_termination.2.2.1 4
      (InflateCall.mk [] ZRet.bufError) [] rfl

-- ---------------------------------------------------------------------------
-- C1/C5/C6: RunMainIsolate, the restart loop, and the snapshot layouts.
-- ---------------------------------------------------------------------------

theorem checkResultTerminal_procExit (r : EngineResult) (c : Nat)
    (h : checkResultTerminal r = .procExit c) :
    c = kCompilationErrorExitCode ∨ c = kErrorExitCode := by
  cases r <;>
    simp [checkResultTerminal, kCompilationErrorExitCode, kErrorExitCode]
      at h ⊢ <;>
    omega

set_option maxHeartbeats 4000000 in
/-- Every process exit produced inside `RunMainIsolate` uses one of the three
public error exit codes — never the restart sentinel 1000. -/
theorem runMainIsolate_procExit_codes (cfg : BuildConfig) (s : ParseState)
    (it : IterationScript) (c : Nat)
    (h : (RunMainIsolate cfg s it).1 = .procExit c) :
    c = kApiErrorExitCode ∨ c = kCompilationErrorExitCode ∨ c = kErrorExitCode := by
  obtain ⟨co, vmo, car, pr, cps, css, rln, mcr, smr, rlr, cfs⟩ := it
  cases co with
  | created =>
    simp only [RunMainIsolate] at h
    split_ifs at h <;> simp at h <;>
      first
        | exact Or.inr (Or.inr h.symm)
        | exact Or.inr (Or.inr h)
        | (rcases checkResultTerminal_procExit _ _ h with h1 | h1
           exacts [Or.inr (Or.inl h1), Or.inr (Or.inr h1)])
  | failedResult e =>
    cases e <;>
      simp [RunMainIsolate, exitCodeForError, kApiErrorExitCode,
        kCompilationErrorExitCode, kErrorExitCode, kRestartRequestExitCode]
        at h ⊢ <;>
      omega
  | failedPlain =>
    simp [RunMainIsolate, kErrorExitCode, kApiErrorExitCode,
      kCompilationErrorExitCode] at h ⊢
    omega

theorem driverLoop_no_sentinel (cfg : BuildConfig) (s : ParseState) :
    ∀ (its : List IterationScript) (n : Nat) (c : Nat),
      (driverLoop cfg s its n).2 = some (.procExit c) →
      c = kApiErrorExitCode ∨ c = kCompilationErrorExitCode ∨ c = kErrorExitCode := by
  intro its
  induction its with
  | nil => intro n c h; simp [driverLoop] at h
  | cons it rest ih =>
    intro n c h
    rcases ho : (RunMainIsolate cfg s it).1 with _ | _ | k <;>
      simp only [driverLoop, ho] at h
    · exact ih (n + 1) c h
    · simp at h
    · simp at h
      rw [← h]
      exact runMainIsolate_procExit_codes cfg s it k ho

/-- The restart sentinel 1000 never becomes the process exit code: it is
consumed by the driver's loop. -/
theorem mainLoopExit_no_sentinel (cfg : BuildConfig) (s : ParseState)
    (its : List IterationScript) :
    (mainLoopExit cfg s its).2 ≠ some kRestartRequestExitCode := by
  intro h
  unfold mainLoopExit at h
  rcases hd : driverLoop cfg s its 0 with ⟨n, o⟩
  rw [hd] at h
  match o, h with
  | some .completed, h =>
    rw [Process_GlobalExitCode, kRestartRequestExitCode] at h
    simp at h
  | some (.procExit c), h =>
    simp only [Option.some.injEq] at h
    have hc : (driverLoop cfg s its 0).2 = some (.procExit c) := by
      rw [hd]
    rcases driverLoop_no_sentinel cfg s its 0 c hc with h1 | h1 | h1 <;>
      rw [h1] at h <;> revert h <;> decide

theorem driverLoop_restart_append (cfg : BuildConfig) (s : ParseState)
    (lastIt : IterationScript)
    (hlast : (RunMainIsolate cfg s lastIt).1 = .completed) :
    ∀ (its : List IterationScript) (n : Nat),
      (∀ it ∈ its, (RunMainIsolate cfg s it).1 = .restart) →
      driverLoop cfg s (its ++ [lastIt]) n =
        (n + its.length + 1, some .completed) := by
  intro its
  induction its with
  | nil =>
    intro n _
    simp [driverLoop, hlast]
  | cons it rest ih =>
    intro n hres
    have h1 : (RunMainIsolate cfg s it).1 = .restart :=
      hres it (List.mem_cons_self it rest)
    simp only [List.cons_append, driverLoop, h1, List.append_eq]
    rw [ih (n + 1) (fun x hx => hres x (List.mem_cons_of_mem it hx))]
    simp
    omega

/-- Claim C1: if the bootstrap of the main isolate returns a restart result N
consecutive times before a run finally completes normally, the driver
performs exactly N+1 full bootstrap iterations and the process exits 0 on the
final success; the restart exit-code sentinel 1000 is consumed by the
driver's loop and is never the process exit code. -/
theorem restart_loop_iterations (cfg : BuildConfig) (s : ParseState)
    (its : List IterationScript) (lastIt : IterationScript) (N : Nat)
    (hlen : its.length = N)
    (hres : ∀ it ∈ its, (RunMainIsolate cfg s it).1 = .restart)
    (hlast : (RunMainIsolate cfg s lastIt).1 = .completed) :
    mainLoopExit cfg s (its ++ [lastIt]) = (N + 1, some 0) ∧
    (∀ its2, (mainLoopExit cfg s its2).2 ≠ some kRestartRequestExitCode) := by
  constructor
  · unfold mainLoopExit
    rw [driverLoop_restart_append cfg s lastIt hlast its 0 hres]
    simp [Process_GlobalExitCode, hlen]
  · exact fun its2 => mainLoopExit_no_sentinel cfg s its2

/-- Witness for C1: two restart iterations followed by a normal completion
give exactly three bootstrap iterations and exit code 0. -/
theorem restart_loop_iterations_witness :
    mainLoopExit stdBuild {}
      [{ runLoopResult := .restartRequest }, { runLoopResult := .restartRequest },
       ({} : IterationScript)] = (3, some 0) := by
  have h := restart_loop_iterations stdBuild {}
    [{ runLoopResult := .restartRequest }, { runLoopResult := .restartRequest }]
    ({} : IterationScript) 2 (by decide) (by decide) (by decide)
  simpa using h.1

/-- Claim C5: in generate-full-snapshot-after-run mode, after the message
loop returns, the full snapshot (vm state plus isolate heap state) is written
if and only if the loop's terminal result is neither a compilation error nor
a restart request — in particular it is still written before the process
exits on an API or generic runtime error, and never written on a compilation
error or restart. -/
theorem full_snapshot_after_run_condition (cfg : BuildConfig) (s : ParseState)
    (it : IterationScript)
    (h1 : s.generate_script_snapshot = false)
    (h2 : s.gen_precompiled_snapshot = false)
    (h3 : s.generate_full_snapshot_after_run = true)
    (hc : it.createOutcome = .created)
    (hv : it.vmServiceLoadOk = true)
    (hca : it.compileAllResult = .ok)
    (hpc : it.precompileResult = .ok)
    (hrl : it.rootLibIsNull = false)
    (hmc : it.mainClosureResult = .ok)
    (hsi : it.startMainIsolateResult = .ok)
    (hcs : it.createFullSnapshotResult = .ok) :
    ((it.runLoopResult ≠ EngineResult.compilationError ∧
        it.runLoopResult ≠ EngineResult.restartRequest) →
      (RunMainIsolate cfg s it).2 = GenerateFullSnapshotWrites s) ∧
    ((it.runLoopResult = EngineResult.compilationError ∨
        it.runLoopResult = EngineResult.restartRequest) →
      (RunMainIsolate cfg s it).2 = []) ∧
    ((RunMainIsolate cfg s it).2 ≠ [] ↔
      (it.runLoopResult ≠ EngineResult.compilationError ∧
        it.runLoopResult ≠ EngineResult.restartRequest)) := by
  obtain ⟨co, vmo, car, pr, cps, css, rln, mcr, smr, rlr, cfs⟩ := it
  dsimp only at hc hv hca hpc hrl hmc hsi hcs
  subst hc hv hca hpc hrl hmc hsi hcs
  cases rlr <;>
    simp [RunMainIsolate, h1, h2, h3, checkResultTerminal,
      GenerateFullSnapshotWrites]

/-- Witness for C5: a run-loop that ends normally writes the two snapshot
files; a run-loop that ends in a restart request writes none. -/
theorem full_snapshot_after_run_condition_witness :
    (RunMainIsolate stdBuild
      { generate_full_snapshot_after_run := true,
        snapshot_filename := some ("out".toList) } {}).2 =
      GenerateFullSnapshotWrites
        { generate_full_snapshot_after_run := true,
          snapshot_filename := some ("out".toList) } ∧
    (RunMainIsolate stdBuild
      { generate_full_snapshot_after_run := true,
        snapshot_filename := some ("out".toList) }
      { runLoopResult := .restartRequest }).2 = [] := by
  constructor
  · exact (full_snapshot_after_run_condition stdBuild _ {} rfl rfl rfl rfl rfl
      rfl rfl rfl rfl rfl rfl).1 (by decide)
  · exact (full_snapshot_after_run_condition stdBuild _
      { runLoopResult := .restartRequest } rfl rfl rfl rfl rfl rfl rfl rfl rfl
      rfl rfl).2.1 (by decide)

/-- Claim C6: a script snapshot is a single buffer written with the 4-byte
magic-number prefix to the command-line snapshot filename; a full snapshot is
two buffers with no magic number written to the sibling files
`<base>.vmisolate` and `<base>.isolate` where base is the command-line
snapshot filename; a precompiled snapshot is three buffers with no magic
number written to the fixed names precompiled.vmisolate, precompiled.isolate
and precompiled.S (inside the optional snapshot directory). -/
theorem snapshot_file_layout :
    kMagicNumber.length = 4 ∧
    (∀ cfg s it, s.generate_script_snapshot = true →
      it.createOutcome = CreateOutcome.created →
      it.createScriptSnapshotResult = EngineResult.ok →
      (RunMainIsolate cfg s it).2 =
        [WriteEvent.mk none (s.snapshot_filename.getD []) true SnapBuf.script]) ∧
    (∀ f, ComputeSnapshotFilenames f =
      (f ++ ".vmisolate".toList, f ++ ".isolate".toList)) ∧
    (∀ s, GenerateFullSnapshotWrites s =
      [WriteEvent.mk none ((s.snapshot_filename.getD []) ++ ".vmisolate".toList)
          false SnapBuf.vmIsolate,
       WriteEvent.mk none ((s.snapshot_filename.getD []) ++ ".isolate".toList)
          false SnapBuf.isolate]) ∧
    (∀ cfg s it, s.generate_script_snapshot = false →
      s.gen_precompiled_snapshot = true →
      it.createOutcome = CreateOutcome.created → it.vmServiceLoadOk = true →
      it.compileAllResult = EngineResult.ok →
      it.precompileResult = EngineResult.ok →
      it.createPrecompiledSnapshotResult = EngineResult.ok →
      (RunMainIsolate cfg s it).2 =
        [WriteEvent.mk s.precompiled_snapshot_directory
            ("precompiled.vmisolate".toList) false SnapBuf.vmIsolate,
         WriteEvent.mk s.precompiled_snapshot_directory
            ("precompiled.isolate".toList) false SnapBuf.isolate,
         WriteEvent.mk s.precompiled_snapshot_directory
            ("precompiled.S".toList) false SnapBuf.instructions]) ∧
    ((match ParseArguments bootstrapBuild
        [ "--full-snapshot-after-run=out".toList, "s".toList ] with
      | .ok _ _ s => s.snapshot_filename
      | .err s => s.snapshot_filename) = some ("out".toList)) := by
  refine ⟨by decide, fun cfg s it hs hc hcss => ?_, fun f => ?_, fun s => ?_,
    fun cfg s it hs hg hc hv hca hpc hcps => ?_, by decide⟩
  · obtain ⟨co, vmo, car, pr, cps, css, rln, mcr, smr, rlr, cfs⟩ := it
    dsimp only at hc hcss
    subst hc hcss
    simp [RunMainIsolate, hs, GenerateScriptSnapshotWrites]
  · simp [ComputeSnapshotFilenames,
      show ('.' :: kVMIsolateSuffix) = ".vmisolate".toList from by decide,
      show ('.' :: kIsolateSuffix) = ".isolate".toList from by decide]
  · simp [GenerateFullSnapshotWrites, ComputeSnapshotFilenames,
      show ('.' :: kVMIsolateSuffix) = ".vmisolate".toList from by decide,
      show ('.' :: kIsolateSuffix) = ".isolate".toList from by decide]
  · obtain ⟨co, vmo, car, pr, cps, css, rln, mcr, smr, rlr, cfs⟩ := it
    dsimp only at hc hv hca hpc hcps
    subst hc hv hca hpc hcps
    simp [RunMainIsolate, hs, hg, GeneratePrecompiledSnapshotWrites,
      show kPrecompiledVmIsolateName = "precompiled.vmisolate".toList from by decide,
      show kPrecompiledIsolateName = "precompiled.isolate".toList from by decide,
      show kPrecompiledInstructionsName = "precompiled.S".toList from by decide]

/-- Witness for C6 at concrete states. -/
theorem snapshot_file_layout_witness :
    (RunMainIsolate snapshotBuild
      { generate_script_snapshot := true,
        snapshot_filename := some ("snap".toList) } {}).2 =
      [WriteEvent.mk none ("snap".toList) true SnapBuf.script] ∧
    ComputeSnapshotFilenames ("out".toList) =
      ("out.vmisolate".toList, "out.isolate".toList) ∧
    (RunMainIsolate bootstrapBuild
      { gen_precompiled_snapshot := true,
        precompiled_snapshot_directory := some ("d".toList) } {}).2 =
      [WriteEvent.mk (some ("d".toList)) ("precompiled.vmisolate".toList)
          false SnapBuf.vmIsolate,
       WriteEvent.mk (some ("d".toList)) ("precompiled.isolate".toList)
          false SnapBuf.isolate,
       WriteEvent.mk (some ("d".toList)) ("precompiled.S".toList)
          false SnapBuf.instructions] := by
  refine ⟨?_, ?_, ?_⟩
  · have h := snapshot_file_layout.2.1 snapshotBuild
      { generate_script_snapshot := true,
        snapshot_filename := some ("snap".toList) } {} rfl rfl rfl
    simpa using h
  · rw [snapshot_file_layout.2.2.1 ("out".toList)]
    decide
  · have h := snapshot_file_layout.2.2.2.2.1 bootstrapBuild
      { gen_precompiled_snapshot := true,
        precompiled_snapshot_directory := some ("d".toList) } {}
      rfl rfl rfl rfl rfl rfl rfl
    simpa using h
